import Mathlib

/-!
Verification of the screw-run data loading code
(src/load of the 2023-prodata-sd-data-anomalies repository).

The Python classes are shallowly embedded: JSON records become explicit
structures with optional fields (a missing field models a missing dict
key), raising code returns an error value, and methods that mutate the
loader object become functions from loader state to loader state.  A
method that can raise returns the state as mutated so far paired with an
optional exception, matching Python semantics where attribute updates
made before a raise persist on the object.
-/

namespace ScrewData

/-- Kinds of Python exception raised by the loader code. -/
inductive PyError where
  | keyError : String → PyError
  | valueError : String → PyError
  | assertionError : String → PyError
  | invalidPathError : String → PyError
  | invalidScenarioError : String → PyError
  | fileNotFoundError : String → PyError
  | indexError : PyError
deriving DecidableEq

/-- First-match lookup in an association list; models Python dict access
on dicts, whose keys are unique. -/
def lookupA {α : Type} : List (String × α) → String → Option α
  | [], _ => none
  | (k, v) :: rest, key => if k = key then some v else lookupA rest key

/-- One tightening-step dict of the raw JSON record.  A field is none when
the corresponding key is absent from the dict.  Series values are numbers;
they are modelled as integers since no claim depends on their arithmetic. -/
structure StepJson where
  name : Option String
  graph : Option (List (String × List Int))
deriving DecidableEq

/-- Embedding of ScrewStep (src/load/screw_step.py): the two attributes
the constructor actually sets. -/
structure ScrewStep where
  name : String
  graph : List (String × List Int)
deriving DecidableEq

/-- ScrewStep.__init__: reads step_dict at key name, then at key graph;
a missing key raises KeyError. -/
def ScrewStep.init (step_dict : StepJson) : Except PyError ScrewStep :=
  match step_dict.name with
  | none => .error (.keyError "name")
  | some n =>
    match step_dict.graph with
    | none => .error (.keyError "graph")
    | some g => .ok ⟨n, g⟩

/-- ScrewStep.get_graph_values: self.graph\x5bvalue_type\x5d, raising
KeyError when the series name is not a key of the graph dict. -/
def ScrewStep.get_graph_values (s : ScrewStep) (value_type : String) :
    Except PyError (List Int) :=
  match lookupA s.graph value_type with
  | none => .error (.keyError value_type)
  | some vs => .ok vs

/-- The run-level JSON dict: only the four keys the constructor reads
outside the dead if False block.  none models an absent key. -/
structure RunJson where
  result : Option String
  date : Option String
  id_code : Option String
  tightening_steps : Option (List StepJson)
deriving DecidableEq

/-- Embedding of ScrewRun (src/load/screw_run.py): the attributes set by
set_attributes_from_json. -/
structure ScrewRun where
  name : String
  result : String
  date : String
  code : String
  screw_steps : List ScrewStep
  time_values : List Int
  angle_values : List Int
  torque_values : List Int
  gradient_values : List Int
deriving DecidableEq

/-- The list comprehension building ScrewStep objects: fails at the first
step whose construction raises, producing no list at all. -/
def parseSteps : List StepJson → Except PyError (List ScrewStep)
  | [] => .ok []
  | d :: rest =>
    match ScrewStep.init d with
    | .error e => .error e
    | .ok st =>
      match parseSteps rest with
      | .error e => .error e
      | .ok sts => .ok (st :: sts)

/-- ScrewRun.get_run_values as a function of the step list:
list(chain.from_iterable(step.get_graph_values(value) for step in steps)),
i.e. the step-order concatenation, raising at the first step whose graph
lacks the series name. -/
def get_run_values (steps : List ScrewStep) (value : String) :
    Except PyError (List Int) :=
  match steps with
  | [] => .ok []
  | st :: rest =>
    match st.get_graph_values value with
    | .error e => .error e
    | .ok vs =>
      match get_run_values rest value with
      | .error e => .error e
      | .ok rest_vs => .ok (vs ++ rest_vs)

/-- ScrewRun.get_run_values, the method form on a constructed run. -/
def ScrewRun.get_run_values (run : ScrewRun) (value : String) :
    Except PyError (List Int) :=
  ScrewData.get_run_values run.screw_steps value

/-- ScrewRun.set_attributes_from_json: reads result, date, id code and
tightening steps (raising KeyError when absent), builds the step list, and
eagerly computes the four concatenated series.  Note that the value found
at result is stored without any membership check against OK or NOK. -/
def ScrewRun.set_attributes_from_json (nm : String) (json_dict : RunJson) :
    Except PyError ScrewRun :=
  match json_dict.result with
  | none => .error (.keyError "result")
  | some result =>
    match json_dict.date with
    | none => .error (.keyError "date")
    | some date =>
      match json_dict.id_code with
      | none => .error (.keyError "id code")
      | some code =>
        match json_dict.tightening_steps with
        | none => .error (.keyError "tightening steps")
        | some step_dicts =>
          match parseSteps step_dicts with
          | .error e => .error e
          | .ok screw_steps =>
            match ScrewData.get_run_values screw_steps "time values" with
            | .error e => .error e
            | .ok time_values =>
              match ScrewData.get_run_values screw_steps "angle values" with
              | .error e => .error e
              | .ok angle_values =>
                match ScrewData.get_run_values screw_steps "torque values" with
                | .error e => .error e
                | .ok torque_values =>
                  match ScrewData.get_run_values screw_steps "gradient values" with
                  | .error e => .error e
                  | .ok gradient_values =>
                    .ok ⟨nm, result, date, code, screw_steps, time_values,
                         angle_values, torque_values, gradient_values⟩

/-- ScrewRun.__init__: resolve the file name in the backing record store
(none models a missing file, raising FileNotFoundError), then parse. -/
def ScrewRun.init (store : String → Option RunJson) (nm : String) :
    Except PyError ScrewRun :=
  match store nm with
  | none => .error (.fileNotFoundError nm)
  | some d => ScrewRun.set_attributes_from_json nm d

/-- Embedding of the BaseLoader attribute state (src/load/base_loader.py).
The element type of all_runs is a parameter because Python attributes are
untyped: DataFromIds stores raw id strings in the runs slot.  The two dmc
dicts are insertion-ordered association lists, as Python dicts are. -/
structure BaseLoaderState (α : Type) where
  all_run_ids : List String
  all_runs : List α
  count_of_ok : Nat
  count_of_nok : Nat
  counts_of_dmc : List (String × Nat)
  labels_of_dmc : List (String × List String)
  num_of_runs : Nat
  num_of_dmcs : Nat
deriving DecidableEq

/-- BaseLoader.__init__: empty collections, zero counters. -/
def BaseLoader.init (α : Type) : BaseLoaderState α :=
  ⟨[], [], 0, 0, [], [], 0, 0⟩

/-- Loader state whose runs are parsed ScrewRun objects. -/
abbrev LoaderState := BaseLoaderState ScrewRun

/-- Evaluation of the list comprehension in BaseLoader.load_runs: the
whole list is built before any assignment; the first failing construction
aborts it. -/
def fetchAll (store : String → Option RunJson) :
    List String → Except PyError (List ScrewRun)
  | [] => .ok []
  | nm :: rest =>
    match ScrewRun.init store nm with
    | .error e => .error e
    | .ok r =>
      match fetchAll store rest with
      | .error e => .error e
      | .ok rs => .ok (r :: rs)

/-- BaseLoader.load_runs: self.all_runs is assigned only after the whole
comprehension has been evaluated; if it raises, the state is unchanged. -/
def BaseLoader.load_runs (store : String → Option RunJson)
    (s : LoaderState) : LoaderState × Option PyError :=
  match fetchAll store s.all_run_ids with
  | .ok runs => ({ s with all_runs := runs }, none)
  | .error e => (s, some e)

/-- BaseLoader.get_run_ids: returns self.all_run_ids. -/
def BaseLoader.get_run_ids {α : Type} (s : BaseLoaderState α) : List String :=
  s.all_run_ids

/-- The loop of BaseLoader.update_label_counts: increments already made
before a raise persist in the returned state. -/
def label_counts_go : LoaderState → List ScrewRun → LoaderState × Option PyError
  | s, [] => (s, none)
  | s, run :: rest =>
    if run.result = "OK" then
      label_counts_go { s with count_of_ok := s.count_of_ok + 1 } rest
    else if run.result = "NOK" then
      label_counts_go { s with count_of_nok := s.count_of_nok + 1 } rest
    else
      (s, some (.valueError ("Unkown label " ++ run.result ++
        " in screw run " ++ run.name)))

/-- BaseLoader.update_label_counts: tallies OK and NOK results over
all_runs, raising ValueError at the first other label.  The counters are
not reset before the loop. -/
def BaseLoader.update_label_counts (s : LoaderState) :
    LoaderState × Option PyError :=
  label_counts_go s s.all_runs

/-- In-place increment of the value at the first occurrence of a key,
modelling dict\x5bkey\x5d += 1 (keys are unique in a Python dict). -/
def incrAt : List (String × Nat) → String → List (String × Nat)
  | [], _ => []
  | (k, v) :: rest, key =>
    if k = key then (k, v + 1) :: rest else (k, v) :: incrAt rest key

/-- In-place append to the list at the first occurrence of a key,
modelling dict\x5bkey\x5d += \x5bx\x5d. -/
def appendAt : List (String × List String) → String → String →
    List (String × List String)
  | [], _, _ => []
  | (k, v) :: rest, key, x =>
    if k = key then (k, v ++ [x]) :: rest else (k, v) :: appendAt rest key x

/-- The loop of BaseLoader.update_dmc_dics: on first sight of a code both
dicts gain a fresh entry, otherwise the count is incremented and the
result appended.  Never raises. -/
def dmc_dics_go : LoaderState → List ScrewRun → LoaderState
  | s, [] => s
  | s, run :: rest =>
    if (lookupA s.counts_of_dmc run.code).isSome then
      dmc_dics_go
        { s with counts_of_dmc := incrAt s.counts_of_dmc run.code,
                 labels_of_dmc := appendAt s.labels_of_dmc run.code run.result }
        rest
    else
      dmc_dics_go
        { s with counts_of_dmc := s.counts_of_dmc ++ [(run.code, 1)],
                 labels_of_dmc := s.labels_of_dmc ++ [(run.code, [run.result])] }
        rest

/-- BaseLoader.update_dmc_dics. -/
def BaseLoader.update_dmc_dics (s : LoaderState) : LoaderState :=
  dmc_dics_go s s.all_runs

/-- BaseLoader.update_num_of_runs: asserts that all_run_ids and all_runs
have the same length, then stores it; an AssertionError is re-raised. -/
def BaseLoader.update_num_of_runs (s : LoaderState) :
    LoaderState × Option PyError :=
  if s.all_run_ids.length = s.all_runs.length then
    ({ s with num_of_runs := s.all_runs.length }, none)
  else
    (s, some (.assertionError "The number of run ids does not match the number of runs"))

/-- BaseLoader.update_num_of_dmcs: asserts that counts_of_dmc and
labels_of_dmc have the same length, then stores it. -/
def BaseLoader.update_num_of_dmcs (s : LoaderState) :
    LoaderState × Option PyError :=
  if s.counts_of_dmc.length = s.labels_of_dmc.length then
    ({ s with num_of_dmcs := s.counts_of_dmc.length }, none)
  else
    (s, some (.assertionError "The number of dmc labels does not match the number of dmcs by count"))

/-- BaseLoader.update: runs the four update methods in order, stopping at
the first raise with the state as mutated so far. -/
def BaseLoader.update (s : LoaderState) : LoaderState × Option PyError :=
  match BaseLoader.update_label_counts s with
  | (s1, some e) => (s1, some e)
  | (s1, none) =>
    match BaseLoader.update_num_of_runs (BaseLoader.update_dmc_dics s1) with
    | (s3, some e) => (s3, some e)
    | (s3, none) => BaseLoader.update_num_of_dmcs s3

/-- Embedding of Scenarios (src/load/scenarios.py). -/
structure Scenarios where
  numbers : List Int
  names : List String
  paths : List String
deriving DecidableEq

/-- Scenarios.__init__: the fixed registry of the two scenarios. -/
def Scenarios.init : Scenarios :=
  ⟨[1, 2],
   ["Wiederholte Verschraubungen x25",
    "Wiederholte Verschraubungen x25 mit Aufbohrung"],
   ["data/01_repeated-screw-runs-x25",
    "data/02_repeated-screw-runs-x25-with-drilling"]⟩

/-- Scenarios.get_path_by_number: raises InvalidScenarioError when the
number is not registered (also when list.index fails, which cannot happen
after the membership test); an out-of-range path index would raise an
uncaught IndexError. -/
def Scenarios.get_path_by_number (s : Scenarios) (number : Int) :
    Except PyError String :=
  if s.numbers.contains number then
    match s.numbers.findIdx? (fun x => x == number) with
    | none => .error (.invalidScenarioError "The index is not in the list of all paths.")
    | some i =>
      match s.paths.get? i with
      | none => .error .indexError
      | some p => .ok p
  else
    .error (.invalidScenarioError "The selected number is not in the list of all numbers.")

/-- Scenarios.get_path_by_name: the same lookup keyed by canonical name. -/
def Scenarios.get_path_by_name (s : Scenarios) (nm : String) :
    Except PyError String :=
  if s.names.contains nm then
    match s.names.findIdx? (fun x => x == nm) with
    | none => .error (.invalidScenarioError "The index is not in the list of all paths.")
    | some i =>
      match s.paths.get? i with
      | none => .error .indexError
      | some p => .ok p
  else
    .error (.invalidScenarioError "The selected name is not in the list of all names.")

/-- The path argument of DataFromPath.load_run_ids: a single string or a
list of strings (any other runtime type raises ValueError and is not
representable here). -/
inductive PathInput where
  | str : String → PathInput
  | list : List String → PathInput

/-- The isinstance dispatch at the top of DataFromPath.load_run_ids. -/
def PathInput.toPaths : PathInput → List String
  | .str p => [p]
  | .list ps => ps

/-- The path loop of DataFromPath.load_run_ids over a filesystem fs
mapping a directory path to its file listing (none models a path that is
not a directory).  Identifiers collected from earlier paths persist when a
later path raises InvalidPathError. -/
def path_ids_go (fs : String → Option (List String)) :
    LoaderState → List String → LoaderState × Option PyError
  | s, [] => (s, none)
  | s, p :: rest =>
    match fs p with
    | none => (s, some (.invalidPathError p))
    | some files =>
      path_ids_go fs
        { s with all_run_ids :=
            s.all_run_ids ++ files.filter (fun f => f.endsWith ".json") }
        rest

/-- DataFromPath.load_run_ids: clears self.all_runs (the source assigns
the empty list to all_runs, not all_run_ids), then walks the paths,
extending all_run_ids with the json files of each directory. -/
def DataFromPath.load_run_ids (fs : String → Option (List String))
    (s : LoaderState) (path : PathInput) : LoaderState × Option PyError :=
  path_ids_go fs { s with all_runs := [] } path.toPaths

/-- DataFromIds.__init__ (src/load/data_from_ids.py, marked UNFINISHED in
its docstring): after base initialisation the given id list is assigned to
the attribute all_runs, and all_run_ids is never written.  The base
initialisation is modelled charitably: the source actually writes
super.__init__() without parentheses, so BaseLoader.__init__ never runs at
all. -/
def DataFromIds.init (ids : List String) : BaseLoaderState String :=
  { BaseLoader.init String with all_runs := ids }

/-- Number of runs in a list whose result field equals the given label. -/
def countResult : List ScrewRun → String → Nat
  | [], _ => 0
  | r :: rest, lbl => (if r.result = lbl then 1 else 0) + countResult rest lbl

theorem label_go_none (runs : List ScrewRun) (s s1 : LoaderState)
    (h : label_counts_go s runs = (s1, none)) :
    s1.count_of_ok = s.count_of_ok + countResult runs "OK" ∧
    s1.count_of_nok = s.count_of_nok + countResult runs "NOK" ∧
    s1.all_run_ids = s.all_run_ids ∧ s1.all_runs = s.all_runs ∧
    s1.counts_of_dmc = s.counts_of_dmc ∧ s1.labels_of_dmc = s.labels_of_dmc ∧
    s1.num_of_runs = s.num_of_runs ∧ s1.num_of_dmcs = s.num_of_dmcs := by
  induction runs generalizing s with
  | nil =>
    simp only [label_counts_go, Prod.mk.injEq] at h
    simp [countResult, h.1.symm]
  | cons r rest ih =>
    by_cases hok : r.result = "OK"
    · simp only [label_counts_go, hok, if_true] at h
      have := ih _ h
      simp only [countResult, hok, if_true] at *
      simp_all
      omega
    · by_cases hnok : r.result = "NOK"
      · simp only [label_counts_go, hok, hnok, if_false, if_true] at h
        have := ih _ h
        simp only [countResult, hok, hnok, if_false, if_true] at *
        simp_all
        omega
      · simp only [label_counts_go, hok, hnok, if_false] at h
        simp at h

theorem label_go_total (runs : List ScrewRun) (s s1 : LoaderState)
    (h : label_counts_go s runs = (s1, none)) :
    countResult runs "OK" + countResult runs "NOK" = runs.length := by
  induction runs generalizing s with
  | nil => simp [countResult]
  | cons r rest ih =>
    by_cases hok : r.result = "OK"
    · simp only [label_counts_go, hok, if_true] at h
      have := ih _ h
      have hne : r.result ≠ "NOK" := by rw [hok]; decide
      simp [countResult, hok, hne]
      omega
    · by_cases hnok : r.result = "NOK"
      · simp only [label_counts_go, hok, hnok, if_false, if_true] at h
        have := ih _ h
        simp [countResult, hok, hnok]
        omega
      · simp only [label_counts_go, hok, hnok, if_false] at h
        simp at h

theorem dmc_go_preserves (runs : List ScrewRun) (s : LoaderState) :
    (dmc_dics_go s runs).all_run_ids = s.all_run_ids ∧
    (dmc_dics_go s runs).all_runs = s.all_runs ∧
    (dmc_dics_go s runs).count_of_ok = s.count_of_ok ∧
    (dmc_dics_go s runs).count_of_nok = s.count_of_nok ∧
    (dmc_dics_go s runs).num_of_runs = s.num_of_runs ∧
    (dmc_dics_go s runs).num_of_dmcs = s.num_of_dmcs := by
  induction runs generalizing s with
  | nil => simp [dmc_dics_go]
  | cons r rest ih =>
    by_cases hmem : (lookupA s.counts_of_dmc r.code).isSome
    · simp only [dmc_dics_go, hmem, if_true]
      exact ih _
    · simp only [dmc_dics_go, hmem, if_false]
      exact ih _

theorem update_none_char (s s' : LoaderState)
    (h : BaseLoader.update s = (s', none)) :
    ∃ s1, BaseLoader.update_label_counts s = (s1, none) ∧
      s' = { dmc_dics_go s1 s1.all_runs with
             num_of_runs := (dmc_dics_go s1 s1.all_runs).all_runs.length,
             num_of_dmcs := (dmc_dics_go s1 s1.all_runs).counts_of_dmc.length } := by
  rcases h1 : BaseLoader.update_label_counts s with ⟨s1, o⟩
  cases o with
  | some e =>
    rw [BaseLoader.update, h1] at h
    simp at h
  | none =>
    refine ⟨s1, rfl, ?_⟩
    rw [BaseLoader.update, h1] at h
    simp only [BaseLoader.update_dmc_dics] at h
    split at h
    · simp at h
    · rename_i s3 heq
      simp only [BaseLoader.update_num_of_runs] at heq
      split at heq
      · simp only [Prod.mk.injEq, and_true] at heq
        simp only [BaseLoader.update_num_of_dmcs] at h
        split at h
        · simp only [Prod.mk.injEq, and_true] at h
          subst heq
          simp [h.symm]
        · simp at h
      · simp at heq

/-- The two dmc dicts are aligned: same keys in the same order, and each
label list has the length recorded by the count dict. -/
def Aligned (cs : List (String × Nat)) (ls : List (String × List String)) : Prop :=
  List.Forall₂ (fun a b => a.1 = b.1 ∧ b.2.length = a.2) cs ls

theorem aligned_incr_append (cs : List (String × Nat))
    (ls : List (String × List String)) (k r : String) (h : Aligned cs ls) :
    Aligned (incrAt cs k) (appendAt ls k r) := by
  induction h with
  | nil => exact List.Forall₂.nil
  | cons hab htail ih =>
    rename_i a b cs' ls'
    rcases a with ⟨ka, va⟩
    rcases b with ⟨kb, vb⟩
    obtain ⟨hk, hlen⟩ := hab
    simp only at hk hlen
    subst hk
    by_cases hak : ka = k
    · simp only [incrAt, appendAt, hak, if_true]
      exact List.Forall₂.cons ⟨rfl, by simp [hlen]⟩ htail
    · simp only [incrAt, appendAt, hak, if_false]
      exact List.Forall₂.cons ⟨rfl, hlen⟩ ih

theorem aligned_snoc (cs : List (String × Nat))
    (ls : List (String × List String)) (k r : String) (h : Aligned cs ls) :
    Aligned (cs ++ [(k, 1)]) (ls ++ [(k, [r])]) :=
  List.rel_append h (List.Forall₂.cons ⟨rfl, rfl⟩ List.Forall₂.nil)

theorem dmc_go_aligned (runs : List ScrewRun) (s : LoaderState)
    (h : Aligned s.counts_of_dmc s.labels_of_dmc) :
    Aligned (dmc_dics_go s runs).counts_of_dmc (dmc_dics_go s runs).labels_of_dmc := by
  induction runs generalizing s with
  | nil => simpa [dmc_dics_go] using h
  | cons r rest ih =>
    by_cases hmem : (lookupA s.counts_of_dmc r.code).isSome
    · simp only [dmc_dics_go, hmem, if_true]
      exact ih _ (aligned_incr_append _ _ _ _ h)
    · simp only [dmc_dics_go, hmem, if_false]
      exact ih _ (aligned_snoc _ _ _ _ h)

theorem aligned_fst (cs : List (String × Nat)) (ls : List (String × List String))
    (h : Aligned cs ls) : cs.map Prod.fst = ls.map Prod.fst := by
  induction h with
  | nil => rfl
  | cons hab htail ih => simp [hab.1, ih]

theorem aligned_lookup (cs : List (String × Nat)) (ls : List (String × List String))
    (h : Aligned cs ls) (w : String) (c : Nat) (hw : lookupA cs w = some c) :
    ∃ labels, lookupA ls w = some labels ∧ labels.length = c := by
  induction h with
  | nil => simp [lookupA] at hw
  | cons hab htail ih =>
    rename_i a b cs' ls'
    obtain ⟨hk, hlen⟩ := hab
    rcases a with ⟨ka, va⟩
    rcases b with ⟨kb, vb⟩
    simp only at hk hlen
    subst hk
    by_cases hkw : ka = w
    · simp only [lookupA, hkw, if_true, Option.some.injEq] at hw ⊢
      exact ⟨vb, rfl, hlen.trans hw⟩
    · simp only [lookupA, hkw, if_false] at hw ⊢
      exact ih hw

theorem fetchAll_mem_error (store : String → Option RunJson)
    (ids : List String) (nm : String) (hmem : nm ∈ ids) (e : PyError)
    (hfail : ScrewRun.init store nm = .error e) :
    ∃ ef, fetchAll store ids = .error ef := by
  induction ids with
  | nil => cases hmem
  | cons x rest ih =>
    rcases List.mem_cons.mp hmem with h | h
    · subst h
      exact ⟨e, by simp [fetchAll, hfail]⟩
    · cases hx : ScrewRun.init store x with
      | error e2 => exact ⟨e2, by simp [fetchAll, hx]⟩
      | ok r =>
        obtain ⟨ef, hf⟩ := ih h
        exact ⟨ef, by simp [fetchAll, hx, hf]⟩

theorem get_run_values_miss (steps : List ScrewStep) (st : ScrewStep)
    (hmem : st ∈ steps) (v : String) (hmiss : lookupA st.graph v = none) :
    ∃ e, get_run_values steps v = .error e := by
  induction steps with
  | nil => cases hmem
  | cons x rest ih =>
    rcases List.mem_cons.mp hmem with h | h
    · subst h
      exact ⟨.keyError v, by simp [get_run_values, ScrewStep.get_graph_values, hmiss]⟩
    · cases hx : x.get_graph_values v with
      | error e => exact ⟨e, by simp [get_run_values, hx]⟩
      | ok vs =>
        obtain ⟨e, hf⟩ := ih h
        exact ⟨e, by simp [get_run_values, hx, hf]⟩

theorem get_run_values_forall₂ (steps : List ScrewStep) (v : String)
    (vss : List (List Int))
    (h : List.Forall₂ (fun st vs => lookupA st.graph v = some vs) steps vss) :
    get_run_values steps v = .ok vss.flatten := by
  induction h with
  | nil => simp [get_run_values]
  | cons hab htail ih =>
    simp [get_run_values, ScrewStep.get_graph_values, hab, ih]

theorem get_graph_values_error_shape (st : ScrewStep) (v : String)
    (e : PyError) (h : st.get_graph_values v = .error e) : e = .keyError v := by
  unfold ScrewStep.get_graph_values at h
  split at h
  · exact (Except.error.inj h).symm
  · simp at h

theorem get_run_values_error_shape (steps : List ScrewStep) (v : String)
    (e : PyError) (h : get_run_values steps v = .error e) : e = .keyError v := by
  induction steps with
  | nil => simp [get_run_values] at h
  | cons x rest ih =>
    simp only [get_run_values] at h
    split at h
    · rename_i e2 heq
      exact (Except.error.inj h) ▸ get_graph_values_error_shape x v e2 heq
    · split at h
      · rename_i e3 heq3
        have he : e3 = e := Except.error.inj h
        subst he
        exact ih heq3
      · simp at h

theorem set_attributes_from_json_ok (nm : String) (d : RunJson)
    (run : ScrewRun) (h : ScrewRun.set_attributes_from_json nm d = .ok run) :
    d.result = some run.result ∧ d.date = some run.date ∧
    d.id_code = some run.code ∧
    (∃ sd, d.tightening_steps = some sd ∧ parseSteps sd = .ok run.screw_steps) ∧
    ScrewData.get_run_values run.screw_steps "time values" = .ok run.time_values ∧
    ScrewData.get_run_values run.screw_steps "angle values" = .ok run.angle_values ∧
    ScrewData.get_run_values run.screw_steps "torque values" = .ok run.torque_values ∧
    ScrewData.get_run_values run.screw_steps "gradient values" = .ok run.gradient_values := by
  obtain ⟨rn, rr, rd, rc, rsteps, rtv, rav, rqv, rgv⟩ := run
  unfold ScrewRun.set_attributes_from_json at h
  repeat' split at h
  all_goals simp_all

/-- Claim C1 counterexample: a backing record whose result field holds
MAYBE, a value neither OK nor NOK, is parsed into a ScrewRun with no error
at all, so construction does not fail with UnknownOutcome as claimed. -/
theorem C1_counterexample :
    (⟨some "MAYBE", some "2023-01-01", some "W1", some []⟩ : RunJson).result = some "MAYBE" ∧
    "MAYBE" ≠ "OK" ∧ "MAYBE" ≠ "NOK" ∧
    (ScrewRun.set_attributes_from_json "r1"
      ⟨some "MAYBE", some "2023-01-01", some "W1", some []⟩).isOk = true := by
  decide

/-- Claim C1 (amended): constructing a ScrewRun from a backing record
whose result field is present but not OK or NOK succeeds and stores the
unknown value verbatim in the record; the unknown outcome is rejected only
later, when the aggregate pass (BaseLoader.update) reaches the run and
raises a ValueError. -/
theorem C1_unknown_outcome_deferred (nm : String) (d : RunJson) (r : String)
    (hres : d.result = some r) (hok : r ≠ "OK") (hnok : r ≠ "NOK")
    (run : ScrewRun) (hc : ScrewRun.set_attributes_from_json nm d = .ok run) :
    run.result = r ∧
    ∀ s : LoaderState, s.all_runs = [run] →
      ∃ e, BaseLoader.update s = (s, some e) := by
  have hinv := set_attributes_from_json_ok nm d run hc
  have hrr : run.result = r := (Option.some.inj (hres ▸ hinv.1)).symm
  refine ⟨hrr, fun s hs => ?_⟩
  refine ⟨.valueError ("Unkown label " ++ run.result ++ " in screw run " ++ run.name), ?_⟩
  rw [BaseLoader.update, BaseLoader.update_label_counts, hs]
  simp [label_counts_go, hrr, hok, hnok]

/-- Claim C1 witness: the amended theorem applied to a concrete record
with result MAYBE. -/
theorem C1_witness :
    (⟨"r1", "MAYBE", "2023-01-01", "W1", [], [], [], [], []⟩ : ScrewRun).result = "MAYBE" ∧
    ∀ s : LoaderState,
      s.all_runs = [⟨"r1", "MAYBE", "2023-01-01", "W1", [], [], [], [], []⟩] →
      ∃ e, BaseLoader.update s = (s, some e) :=
  C1_unknown_outcome_deferred "r1" ⟨some "MAYBE", some "2023-01-01", some "W1", some []⟩
    "MAYBE" rfl (by decide) (by decide)
    ⟨"r1", "MAYBE", "2023-01-01", "W1", [], [], [], [], []⟩ rfl

/-- Fresh loader carrying a single successfully parsed OK run. -/
def c2state : LoaderState :=
  { BaseLoader.init ScrewRun with
    all_run_ids := ["r1"],
    all_runs := [⟨"r1", "OK", "2023-01-01", "W1", [], [], [], [], []⟩] }

/-- Claim C2 counterexample: both invocations of the aggregate pass
succeed, but the second yields count_of_ok = 2 over the unchanged single
OK run where the first yields 1, so the pass is not idempotent. -/
theorem C2_counterexample :
    (BaseLoader.update c2state).2 = none ∧
    (BaseLoader.update c2state).1.count_of_ok = 1 ∧
    (BaseLoader.update (BaseLoader.update c2state).1).2 = none ∧
    (BaseLoader.update (BaseLoader.update c2state).1).1.count_of_ok = 2 := by
  decide

/-- Claim C2 (amended): the aggregate pass is not idempotent, because the
counters are never reset: every successful invocation of update adds the
outcome tallies of all_runs on top of whatever the counters already hold,
so a second invocation over an unchanged nonempty runs collection double
counts. -/
theorem C2_update_accumulates (s s2 : LoaderState)
    (h : BaseLoader.update s = (s2, none)) :
    s2.count_of_ok = s.count_of_ok + countResult s.all_runs "OK" ∧
    s2.count_of_nok = s.count_of_nok + countResult s.all_runs "NOK" := by
  obtain ⟨s1, hlc, hchar⟩ := update_none_char s s2 h
  have hl := label_go_none s.all_runs s s1 hlc
  have hd := dmc_go_preserves s1.all_runs s1
  subst hchar
  refine ⟨?_, ?_⟩
  · show (dmc_dics_go s1 s1.all_runs).count_of_ok = _
    rw [hd.2.2.1, hl.1]
  · show (dmc_dics_go s1 s1.all_runs).count_of_nok = _
    rw [hd.2.2.2.1, hl.2.1]

/-- The loader state produced by one aggregate pass over c2state. -/
def c2result : LoaderState :=
  ⟨["r1"], [⟨"r1", "OK", "2023-01-01", "W1", [], [], [], [], []⟩], 1, 0,
   [("W1", 1)], [("W1", ["OK"])], 1, 1⟩

/-- Claim C2 witness: the amended theorem applied to the concrete loader. -/
theorem C2_witness :
    c2result.count_of_ok = c2state.count_of_ok + countResult c2state.all_runs "OK" ∧
    c2result.count_of_nok = c2state.count_of_nok + countResult c2state.all_runs "NOK" :=
  C2_update_accumulates c2state c2result (by decide)

/-- Claim C3: load_runs is atomic and fail-fast: whenever constructing the
ScrewRun of any identifier in all_run_ids fails, the whole fetch raises
and the loader state, all_runs included, is exactly the state before the
call, because the list comprehension is fully evaluated before the single
assignment to all_runs. -/
theorem C3_load_runs_fail_fast (store : String → Option RunJson)
    (s : LoaderState) (nm : String) (hmem : nm ∈ s.all_run_ids)
    (e : PyError) (hfail : ScrewRun.init store nm = .error e) :
    ∃ e2, BaseLoader.load_runs store s = (s, some e2) := by
  obtain ⟨ef, hf⟩ := fetchAll_mem_error store s.all_run_ids nm hmem e hfail
  exact ⟨ef, by simp [BaseLoader.load_runs, hf]⟩

/-- Loader holding one identifier whose backing record does not exist. -/
def c3state : LoaderState := { BaseLoader.init ScrewRun with all_run_ids := ["r1"] }

/-- Claim C3 witness: fetching against an empty record store fails and
returns the state unchanged. -/
theorem C3_witness :
    ∃ e2, BaseLoader.load_runs (fun _ => none) c3state = (c3state, some e2) :=
  C3_load_runs_fail_fast (fun _ => none) c3state "r1"
    (by simp [c3state]) (.fileNotFoundError "r1") rfl

/-- Claim C4: when every step of a run contains the queried series name,
get_run_values returns exactly the step-order concatenation of the
per-step series, preserving element order and count. -/
theorem C4_concatenated_series (run : ScrewRun) (v : String)
    (vss : List (List Int))
    (h : List.Forall₂ (fun st vs => lookupA st.graph v = some vs) run.screw_steps vss) :
    ScrewRun.get_run_values run v = .ok vss.flatten :=
  get_run_values_forall₂ run.screw_steps v vss h

/-- Run with two steps whose angle series are explicit. -/
def c4run : ScrewRun :=
  ⟨"r1", "OK", "2023-01-01", "W1",
   [⟨"step 1", [("angle values", [1, 2])]⟩, ⟨"step 2", [("angle values", [3])]⟩],
   [], [], [], []⟩

/-- Claim C4 witness: the concatenation theorem applied to a concrete
two-step run queried for angle values. -/
theorem C4_witness :
    ScrewRun.get_run_values c4run "angle values" =
      .ok ([[1, 2], [3]] : List (List Int)).flatten :=
  C4_concatenated_series c4run "angle values" [[1, 2], [3]]
    (List.Forall₂.cons (by decide) (List.Forall₂.cons (by decide) List.Forall₂.nil))

/-- Claim C5: after a successful aggregate pass over a loader whose
counters start at zero, count_of_ok + count_of_nok equals the number of
loaded runs; a run with any other outcome aborts the pass. -/
theorem C5_outcome_sum (s s2 : LoaderState)
    (h0 : s.count_of_ok = 0) (h1 : s.count_of_nok = 0)
    (h : BaseLoader.update s = (s2, none)) :
    s2.count_of_ok + s2.count_of_nok = s2.all_runs.length := by
  obtain ⟨s1, hlc, hchar⟩ := update_none_char s s2 h
  have hl := label_go_none s.all_runs s s1 hlc
  have ht := label_go_total s.all_runs s s1 hlc
  have hd := dmc_go_preserves s1.all_runs s1
  subst hchar
  show (dmc_dics_go s1 s1.all_runs).count_of_ok + (dmc_dics_go s1 s1.all_runs).count_of_nok
      = (dmc_dics_go s1 s1.all_runs).all_runs.length
  rw [hd.2.2.1, hd.2.2.2.1, hd.2.1, hl.1, hl.2.1, h0, h1, hl.2.2.2.1]
  omega

/-- Fresh loader with one OK and one NOK run on the same workpiece. -/
def c5state : LoaderState :=
  { BaseLoader.init ScrewRun with
    all_run_ids := ["r1", "r2"],
    all_runs := [⟨"r1", "OK", "2023-01-01", "W1", [], [], [], [], []⟩,
                 ⟨"r2", "NOK", "2023-01-01", "W1", [], [], [], [], []⟩] }

/-- The loader state after one aggregate pass over c5state. -/
def c5result : LoaderState :=
  ⟨["r1", "r2"],
   [⟨"r1", "OK", "2023-01-01", "W1", [], [], [], [], []⟩,
    ⟨"r2", "NOK", "2023-01-01", "W1", [], [], [], [], []⟩],
   1, 1, [("W1", 2)], [("W1", ["OK", "NOK"])], 2, 1⟩

/-- Claim C5 witness: the counter sum theorem at the concrete loader. -/
theorem C5_witness :
    c5result.count_of_ok + c5result.count_of_nok = c5result.all_runs.length :=
  C5_outcome_sum c5state c5result rfl rfl (by decide)

/-- Claim C6: after a successful aggregate pass over a loader whose dmc
dicts start empty, the count dict and the label dict have the same key
sequence, and for every tracked workpiece the label list length equals the
recorded count. -/
theorem C6_dmc_alignment (s s2 : LoaderState)
    (hc : s.counts_of_dmc = []) (hl0 : s.labels_of_dmc = [])
    (h : BaseLoader.update s = (s2, none)) :
    s2.counts_of_dmc.map Prod.fst = s2.labels_of_dmc.map Prod.fst ∧
    ∀ w c, lookupA s2.counts_of_dmc w = some c →
      ∃ labels, lookupA s2.labels_of_dmc w = some labels ∧ labels.length = c := by
  obtain ⟨s1, hlc, hchar⟩ := update_none_char s s2 h
  have hl := label_go_none s.all_runs s s1 hlc
  have hal : Aligned s1.counts_of_dmc s1.labels_of_dmc := by
    rw [hl.2.2.2.2.1, hl.2.2.2.2.2.1, hc, hl0]
    exact List.Forall₂.nil
  have halg := dmc_go_aligned s1.all_runs s1 hal
  subst hchar
  exact ⟨aligned_fst _ _ halg, fun w c hw => aligned_lookup _ _ halg w c hw⟩

/-- Fresh loader with two runs sharing workpiece W1. -/
def c6state : LoaderState :=
  { BaseLoader.init ScrewRun with
    all_run_ids := ["r1", "r2"],
    all_runs := [⟨"r1", "OK", "2023-01-01", "W1", [], [], [], [], []⟩,
                 ⟨"r2", "NOK", "2023-01-01", "W1", [], [], [], [], []⟩] }

/-- The loader state after one aggregate pass over c6state. -/
def c6result : LoaderState :=
  ⟨["r1", "r2"],
   [⟨"r1", "OK", "2023-01-01", "W1", [], [], [], [], []⟩,
    ⟨"r2", "NOK", "2023-01-01", "W1", [], [], [], [], []⟩],
   1, 1, [("W1", 2)], [("W1", ["OK", "NOK"])], 2, 1⟩

/-- Claim C6 witness: the alignment theorem at the concrete loader. -/
theorem C6_witness :
    c6result.counts_of_dmc.map Prod.fst = c6result.labels_of_dmc.map Prod.fst ∧
    ∀ w c, lookupA c6result.counts_of_dmc w = some c →
      ∃ labels, lookupA c6result.labels_of_dmc w = some labels ∧ labels.length = c :=
  C6_dmc_alignment c6state c6result rfl rfl (by decide)

/-- Claim C7: for each of the two registered scenarios, lookup by numeric
code and lookup by canonical name resolve to the identical directory
path. -/
theorem C7_scenario_lookup_agreement :
    Scenarios.init.get_path_by_number 1 = .ok "data/01_repeated-screw-runs-x25" ∧
    Scenarios.init.get_path_by_name "Wiederholte Verschraubungen x25" =
      .ok "data/01_repeated-screw-runs-x25" ∧
    Scenarios.init.get_path_by_number 2 = .ok "data/02_repeated-screw-runs-x25-with-drilling" ∧
    Scenarios.init.get_path_by_name "Wiederholte Verschraubungen x25 mit Aufbohrung" =
      .ok "data/02_repeated-screw-runs-x25-with-drilling" :=
  ⟨rfl, rfl, rfl, rfl⟩

/-- Claim C8: DataFromPath.load_run_ids on an existing but empty directory
yields an empty identifier sequence without error, and on a path that is
not a directory raises InvalidPathError with all_run_ids untouched. -/
theorem C8_path_source_boundary (fs : String → Option (List String))
    (s : LoaderState) (p q : String) (hids : s.all_run_ids = [])
    (hemp : fs p = some []) (hnd : fs q = none) :
    ((DataFromPath.load_run_ids fs s (.str p)).1.all_run_ids = [] ∧
     (DataFromPath.load_run_ids fs s (.str p)).2 = none) ∧
    ((DataFromPath.load_run_ids fs s (.str q)).2 = some (.invalidPathError q) ∧
     (DataFromPath.load_run_ids fs s (.str q)).1.all_run_ids = s.all_run_ids) := by
  unfold DataFromPath.load_run_ids PathInput.toPaths
  refine ⟨⟨?_, ?_⟩, ?_, ?_⟩ <;> simp [path_ids_go, hemp, hnd, hids]

/-- Filesystem with a single empty directory. -/
def c8fs : String → Option (List String) :=
  fun pth => if pth = "data/empty" then some [] else none

/-- Claim C8 witness: the boundary theorem at a concrete filesystem with
one empty directory and one non-directory path. -/
theorem C8_witness :
    ((DataFromPath.load_run_ids c8fs (BaseLoader.init ScrewRun) (.str "data/empty")).1.all_run_ids = [] ∧
     (DataFromPath.load_run_ids c8fs (BaseLoader.init ScrewRun) (.str "data/empty")).2 = none) ∧
    ((DataFromPath.load_run_ids c8fs (BaseLoader.init ScrewRun) (.str "data/bad")).2 =
       some (.invalidPathError "data/bad") ∧
     (DataFromPath.load_run_ids c8fs (BaseLoader.init ScrewRun) (.str "data/bad")).1.all_run_ids =
       (BaseLoader.init ScrewRun).all_run_ids) :=
  C8_path_source_boundary c8fs (BaseLoader.init ScrewRun) "data/empty" "data/bad"
    rfl (by decide) (by decide)

/-- Claim C9: DataFromIds stores the given identifier sequence in the
all_runs attribute and never writes all_run_ids, so get_run_ids returns
the empty list rather than the given sequence: the identifier list is not
made available as claimed. -/
theorem C9_ids_not_exposed :
    BaseLoader.get_run_ids (DataFromIds.init ["Ch_01.json"]) = [] ∧
    ([] : List String) ≠ ["Ch_01.json"] := by
  decide

/-- Claim C10: ScrewRun construction is strictly eager over the four
series names: when the other required fields are present and the
tightening steps parse, but some step lacks one of the four series, then
set_attributes_from_json itself fails with the series-lookup KeyError of
one of the four series names, even though no caller ever queried that
series. -/
theorem C10_eager_series (nm : String) (d : RunJson)
    (hr : d.result.isSome = true) (hdt : d.date.isSome = true)
    (hic : d.id_code.isSome = true)
    (step_dicts : List StepJson) (steps : List ScrewStep)
    (hsd : d.tightening_steps = some step_dicts)
    (hp : parseSteps step_dicts = .ok steps)
    (st : ScrewStep) (hst : st ∈ steps) (v : String)
    (hv : v = "time values" ∨ v = "angle values" ∨
          v = "torque values" ∨ v = "gradient values")
    (hmiss : lookupA st.graph v = none) :
    ∃ v2, (v2 = "time values" ∨ v2 = "angle values" ∨
           v2 = "torque values" ∨ v2 = "gradient values") ∧
      ScrewRun.set_attributes_from_json nm d = .error (.keyError v2) := by
  obtain ⟨r, hrr⟩ := Option.isSome_iff_exists.mp hr
  obtain ⟨dt, hdd⟩ := Option.isSome_iff_exists.mp hdt
  obtain ⟨ic, hii⟩ := Option.isSome_iff_exists.mp hic
  obtain ⟨e0, hmv⟩ := get_run_values_miss steps st hst v hmiss
  rcases htv : ScrewData.get_run_values steps "time values" with e1 | tv
  · refine ⟨"time values", Or.inl rfl, ?_⟩
    rw [get_run_values_error_shape steps "time values" e1 htv] at htv
    simp [ScrewRun.set_attributes_from_json, hrr, hdd, hii, hsd, hp, htv]
  · rcases hav : ScrewData.get_run_values steps "angle values" with e1 | av
    · refine ⟨"angle values", Or.inr (Or.inl rfl), ?_⟩
      rw [get_run_values_error_shape steps "angle values" e1 hav] at hav
      simp [ScrewRun.set_attributes_from_json, hrr, hdd, hii, hsd, hp, htv, hav]
    · rcases hqv : ScrewData.get_run_values steps "torque values" with e1 | qv
      · refine ⟨"torque values", Or.inr (Or.inr (Or.inl rfl)), ?_⟩
        rw [get_run_values_error_shape steps "torque values" e1 hqv] at hqv
        simp [ScrewRun.set_attributes_from_json, hrr, hdd, hii, hsd, hp, htv, hav, hqv]
      · rcases hgv : ScrewData.get_run_values steps "gradient values" with e1 | gv
        · refine ⟨"gradient values", Or.inr (Or.inr (Or.inr rfl)), ?_⟩
          rw [get_run_values_error_shape steps "gradient values" e1 hgv] at hgv
          simp [ScrewRun.set_attributes_from_json, hrr, hdd, hii, hsd, hp, htv, hav, hqv, hgv]
        · exfalso
          rcases hv with hveq | hveq | hveq | hveq <;> subst hveq <;> simp_all

/-- Record whose single step lacks the gradient series. -/
def c10dict : RunJson :=
  ⟨some "OK", some "2023-01-01", some "W1",
   some [⟨some "step 1",
          some [("time values", [1]), ("angle values", [2]), ("torque values", [3])]⟩]⟩

/-- Claim C10 witness: the eager-failure theorem at a concrete record
whose step has no gradient values series. -/
theorem C10_witness :
    ∃ v2, (v2 = "time values" ∨ v2 = "angle values" ∨
           v2 = "torque values" ∨ v2 = "gradient values") ∧
      ScrewRun.set_attributes_from_json "r1" c10dict = .error (.keyError v2) :=
  C10_eager_series "r1" c10dict rfl rfl rfl
    [⟨some "step 1",
      some [("time values", [1]), ("angle values", [2]), ("torque values", [3])]⟩]
    [⟨"step 1", [("time values", [1]), ("angle values", [2]), ("torque values", [3])]⟩]
    rfl rfl
    ⟨"step 1", [("time values", [1]), ("angle values", [2]), ("torque values", [3])]⟩
    (List.mem_singleton.mpr rfl)
    "gradient values" (by decide) (by decide)

end ScrewData
